import Mathlib

/-!
Shallow embedding of `staging/js/file-handler.js` (class `AudioFileHandler`),
the upload widget of the whisper-local-to-gpu repository.

Modelling conventions:
* The DOM elements the widget owns are collected into a `WidgetState` record:
  the `disabled` flags of the file input and the upload button, the text of the
  status indicator, the `innerHTML` string of the results box, the visibility of
  the progress section, the width of the progress fill (kept as its numeric
  percentage, since the code writes the style string from that number), the
  progress text, and `fileInput.files` as a list of files (`fileInput.value = ''`
  clears it).
* Network effects are made explicit: every `fetch` the code performs appends the
  requested path to a `networkRequests` ledger in the state, and the outcome of
  the request (resolution, rejection, HTTP status, parsed JSON body) is passed
  to the operation as an explicit argument.
* JavaScript numbers in the relevant expressions are exact: `file.size` is an
  integer number of bytes and `size / 1024 / 1024` divides by a power of two,
  which is exact in binary floating point for sizes below 2^53, so
  `toFixed(2)` is modelled by exact rational rounding (round half up, the
  ECMAScript `toFixed` rule for nonnegative values). Upload-progress byte counts
  are modelled as rationals with exact division. JSON numeric fields
  (`processing_time`) appear in the code only interpolated into template
  strings, so they are carried as their rendered strings.
* `new Date().toLocaleTimeString()` is nondeterministic and is passed in as a
  `timestamp` argument.
-/

/-- Model of a `File` object from the file input: `name`, declared media
`type`, and byte `size`. -/
structure JSFile where
  name : String
  type : String
  size : Nat
deriving DecidableEq, Repr

/-- Parsed JSON body of a transcription response: either
`{success: true, text, processing_time}` or `{success: false, error}`.
The numeric `processing_time` is carried as its JavaScript string rendering,
since the code only interpolates it into a template string. -/
inductive TranscriptionResult where
  | success (text : String) (processing_time : String)
  | failure (error : String)
deriving DecidableEq, Repr

/-- Outcome of the upload `fetch`: the promise rejects with an error message
(network failure), or resolves with an HTTP status, status text, and parsed
JSON body. -/
inductive UploadOutcome where
  | networkError (message : String)
  | response (status : Nat) (statusText : String) (body : TranscriptionResult)
deriving DecidableEq, Repr

/-- Outcome of the health-check `fetch` at page load: `ok` response, non-ok
response (the code then throws `API health check failed`), or rejection. -/
inductive HealthOutcome where
  | ok
  | notOk
  | networkError
deriving DecidableEq, Repr

/-- State of the DOM pieces owned by `AudioFileHandler`, plus the ledger of
network requests issued so far. -/
structure WidgetState where
  fileInputDisabled : Bool
  uploadButtonDisabled : Bool
  statusText : String
  resultsHTML : String
  progressVisible : Bool
  progressFillPercent : ℚ
  progressText : String
  selectedFiles : List JSFile
  networkRequests : List String
deriving DecidableEq, Repr

/-- Configuration field `this.apiEndpoint`. -/
def apiEndpoint : String := "/api/v1/audio/transcribe"

/-- Configuration field `this.maxFileSize` (50MB in bytes). -/
def maxFileSize : Nat := 50 * 1024 * 1024

/-- A `Response.ok` check: HTTP status in the inclusive range 200–299. -/
abbrev responseOk (status : Nat) : Prop := 200 ≤ status ∧ status ≤ 299

/-- Decimal rendering of `n` hundredths with exactly two digits after the
point, as `Number.prototype.toFixed(2)` renders the value `n / 100`. -/
def fixedTwoString (n : Nat) : String :=
  toString (n / 100) ++ "." ++
    (if n % 100 < 10 then "0" ++ toString (n % 100) else toString (n % 100))

/-- The string `(file.size / 1024 / 1024).toFixed(2)` from line 64. The double
`size / 2^20` is exact, and `toFixed(2)` rounds half up to hundredths:
the integer rendered is `⌊100 * size / 2^20 + 1/2⌋ = (200 * size + 2^20) / 2^21`. -/
def sizeMBtoFixed2 (size : Nat) : String :=
  fixedTwoString ((200 * size + 2 ^ 20) / 2 ^ 21)

/-- Method `checkAPIConnection`: fetches `/api/v1/health`; on an ok response
shows the ready message and enables the file input; on a non-ok response or a
rejected fetch, shows the connection-error message and disables the file
input. -/
def checkAPIConnection (outcome : HealthOutcome) (s : WidgetState) : WidgetState :=
  let s0 := { s with networkRequests := s.networkRequests ++ ["/api/v1/health"] }
  match outcome with
  | .ok =>
      { s0 with statusText := "Ready to process audio files", fileInputDisabled := false }
  | .notOk =>
      { s0 with statusText := "Error: Cannot connect to transcription service",
                fileInputDisabled := true }
  | .networkError =>
      { s0 with statusText := "Error: Cannot connect to transcription service",
                fileInputDisabled := true }

/-- Method `handleFileSelection`: reads `files[0]`; returns if absent; rejects
a non-WAV type, then an oversize file, disabling the upload button with an
error message; otherwise enables the upload button and shows the
`Selected: name (S MB)` status line built on line 64. -/
def handleFileSelection (s : WidgetState) : WidgetState :=
  match s.selectedFiles.head? with
  | none => s
  | some file =>
      if file.type ≠ "audio/wav" then
        { s with statusText := "Error: Please select a WAV file",
                 uploadButtonDisabled := true }
      else if file.size > maxFileSize then
        { s with statusText := "Error: File size exceeds 50MB limit",
                 uploadButtonDisabled := true }
      else
        { s with uploadButtonDisabled := false,
                 statusText := "Selected: " ++ file.name ++ " (" ++
                   sizeMBtoFixed2 file.size ++ "MB)" }

/-- Method `updateProgress`: sets the progress-fill width to `percent`% and the
progress text to `Uploading: {Math.round(percent)}%`. `Math.round` rounds half
toward positive infinity, i.e. `⌊x + 1/2⌋`. -/
def updateProgress (percent : ℚ) (s : WidgetState) : WidgetState :=
  { s with progressFillPercent := percent,
           progressText := "Uploading: " ++ toString ⌊percent + 1 / 2⌋ ++ "%" }

/-- The `onUploadProgress` callback passed to `fetch` in `handleUpload`
(lines 91–94): computes `(loaded / total) * 100` and calls `updateProgress`. -/
def onUploadProgress (loaded total : ℚ) (s : WidgetState) : WidgetState :=
  updateProgress (loaded / total * 100) s

/-- The part of the error template literal (lines 123–129) that precedes the
re-interpolated previous `innerHTML`, with the literal's exact whitespace. -/
def errorEntryHTML (timestamp error : String) : String :=
  "\n                <div class=\"transcription-result error\">\n                    <p><strong>Error at "
    ++ timestamp ++ ":</strong></p>\n                    <p>" ++ error
    ++ "</p>\n                </div>\n                "

/-- The error template's text after the re-interpolated previous `innerHTML`. -/
def errorTailHTML : String := "\n            "

/-- The part of the success template literal (lines 133–141) that precedes the
re-interpolated previous `innerHTML`, with the literal's exact whitespace. -/
def successEntryHTML (timestamp text ptime name : String) : String :=
  "\n            <div class=\"transcription-result\">\n                <p><strong>Transcription Result ("
    ++ timestamp ++ "):</strong></p>\n                <p>" ++ text
    ++ "</p>\n                <p><strong>Processing Time:</strong> " ++ ptime
    ++ "s</p>\n                <p><strong>File:</strong> " ++ name
    ++ "</p>\n            </div>\n            "

/-- The success template's text after the re-interpolated previous `innerHTML`. -/
def successTailHTML : String := "\n        "

/-- Method `displayResults`: on `success: false`, prepends an error entry with
the timestamp and `result.error`; on success, prepends an entry with the
timestamp, `result.text`, `result.processing_time` and
`this.fileInput.files[0].name`, and sets the status to
`Transcription complete`. (On success the code reads `files[0]` directly; in
every call site reaching this branch a file is selected, so the `headD`
default is never used.) -/
def displayResults (timestamp : String) (result : TranscriptionResult)
    (s : WidgetState) : WidgetState :=
  match result with
  | .failure err =>
      { s with resultsHTML :=
          errorEntryHTML timestamp err ++ s.resultsHTML ++ errorTailHTML }
  | .success text ptime =>
      { s with
        resultsHTML :=
          successEntryHTML timestamp text ptime
              ((s.selectedFiles.headD ⟨"", "", 0⟩).name)
            ++ s.resultsHTML ++ successTailHTML,
        statusText := "Transcription complete" }

/-- Method `handleUpload`: returns if no file is selected; otherwise shows the
progress section, disables both controls, sets the uploading status, POSTs to
`apiEndpoint`; a non-ok response throws
`Upload failed: {status} {statusText}`; the catch block mirrors the error into
the status and displays a failure result; the finally block hides the progress
section, re-enables both controls, and clears the file input. -/
def handleUpload (timestamp : String) (outcome : UploadOutcome)
    (s : WidgetState) : WidgetState :=
  match s.selectedFiles.head? with
  | none => s
  | some _ =>
      let s1 := { s with
        progressVisible := true,
        uploadButtonDisabled := true,
        fileInputDisabled := true,
        statusText := "Uploading and processing...",
        networkRequests := s.networkRequests ++ [apiEndpoint] }
      let s2 :=
        match outcome with
        | .networkError msg =>
            displayResults timestamp (.failure msg)
              { s1 with statusText := "Error: " ++ msg }
        | .response status stext body =>
            if responseOk status then
              displayResults timestamp body s1
            else
              let msg := "Upload failed: " ++ toString status ++ " " ++ stext
              displayResults timestamp (.failure msg)
                { s1 with statusText := "Error: " ++ msg }
      { s2 with
        progressVisible := false,
        uploadButtonDisabled := false,
        fileInputDisabled := false,
        selectedFiles := [] }

/-- Rendering of `parseFloat(x.toFixed(2))` when interpolated into a string,
for the nonnegative value `n / 100`: the two-decimal string with trailing
fractional zeros removed. -/
def parseFloatFixedTwoString (n : Nat) : String :=
  if n % 100 = 0 then toString (n / 100)
  else if n % 10 = 0 then toString (n / 100) ++ "." ++ toString (n % 100 / 10)
  else fixedTwoString n

/-- The `sizes` array of `formatFileSize`. -/
def sizesLabels : List String := ["Bytes", "KB", "MB", "GB"]

/-- Method `formatFileSize` (lines 146–152, never called by the widget):
returns `0 Bytes` for 0; otherwise picks the unit index
`i = Math.floor(Math.log(bytes) / Math.log(1024))`, i.e. the largest `i` with
`1024^i ≤ bytes` (capped at the GB index for the sizes in range), and renders
`parseFloat((bytes / 1024^i).toFixed(2)) + ' ' + sizes[i]`; the division by
the power of two `1024^i` is exact, so `toFixed(2)` rounds
`100 * bytes / 1024^i` half up. -/
def formatFileSize (bytes : Nat) : String :=
  if bytes = 0 then "0 Bytes"
  else
    let i : Nat :=
      if bytes < 1024 then 0
      else if bytes < 1024 ^ 2 then 1
      else if bytes < 1024 ^ 3 then 2
      else 3
    let k : Nat := 1024 ^ i
    parseFloatFixedTwoString ((200 * bytes + k) / (2 * k)) ++ " " ++
      sizesLabels.getD i ""

/-- User-interaction events the page can deliver to the widget. A disabled
file input cannot receive a selection (the browser blocks interaction), so
`selectFile` is a no-op while `fileInputDisabled` is set; a click on the
upload button runs `handleUpload`, which itself returns when no file is
selected. -/
inductive WidgetEvent where
  | selectFile (f : JSFile)
  | clickUpload (timestamp : String) (outcome : UploadOutcome)

/-- One step of the event-driven widget: dispatch an event to its handler. -/
def widgetStep (s : WidgetState) (e : WidgetEvent) : WidgetState :=
  match e with
  | .selectFile f =>
      if s.fileInputDisabled then s
      else handleFileSelection { s with selectedFiles := [f] }
  | .clickUpload ts outcome => handleUpload ts outcome s

/-- Run a sequence of events from a state. -/
def widgetRun (s : WidgetState) (events : List WidgetEvent) : WidgetState :=
  events.foldl widgetStep s

/-- A convenient concrete base state for concrete evaluations. -/
def initState : WidgetState :=
  { fileInputDisabled := true
    uploadButtonDisabled := true
    statusText := ""
    resultsHTML := ""
    progressVisible := false
    progressFillPercent := 0
    progressText := ""
    selectedFiles := []
    networkRequests := [] }

/-! ## Claims -/

/-- Helper: a Ready state with file `f` selected, as produced by a valid
selection from an enabled input over the base state. -/
def readyState (f : JSFile) : WidgetState :=
  handleFileSelection { initState with fileInputDisabled := false, selectedFiles := [f] }

/-- C1: for every upload whose HTTP response is 2xx with JSON body
`{success: true, text: t, processing_time: p}`, after `handleUpload` completes
the results log's first (most recently prepended) entry contains `t`, `p` and
the selected file's name, and the status indicator equals
`Transcription complete`. -/
theorem upload_success_renders_text_time_name_and_status (s : WidgetState)
    (f : JSFile) (ts t p stext : String) (status : Nat)
    (hf : s.selectedFiles = [f]) (hok : responseOk status) :
    (handleUpload ts (.response status stext (.success t p)) s).resultsHTML
        = successEntryHTML ts t p f.name ++ s.resultsHTML ++ successTailHTML
      ∧ (∃ a b, successEntryHTML ts t p f.name = a ++ t ++ b)
      ∧ (∃ a b, successEntryHTML ts t p f.name = a ++ p ++ b)
      ∧ (∃ a b, successEntryHTML ts t p f.name = a ++ f.name ++ b)
      ∧ (handleUpload ts (.response status stext (.success t p)) s).statusText
        = "Transcription complete" := by
  refine ⟨?_, ?_, ?_, ?_, ?_⟩
  · simp [handleUpload, hf, if_pos hok, displayResults]
  · exact ⟨"\n            <div class=\"transcription-result\">\n                <p><strong>Transcription Result ("
        ++ ts ++ "):</strong></p>\n                <p>",
      "</p>\n                <p><strong>Processing Time:</strong> " ++ p
        ++ "s</p>\n                <p><strong>File:</strong> " ++ f.name
        ++ "</p>\n            </div>\n            ",
      by simp [successEntryHTML, String.append_assoc]⟩
  · exact ⟨"\n            <div class=\"transcription-result\">\n                <p><strong>Transcription Result ("
        ++ ts ++ "):</strong></p>\n                <p>" ++ t
        ++ "</p>\n                <p><strong>Processing Time:</strong> ",
      "s</p>\n                <p><strong>File:</strong> " ++ f.name
        ++ "</p>\n            </div>\n            ",
      by simp [successEntryHTML, String.append_assoc]⟩
  · exact ⟨"\n            <div class=\"transcription-result\">\n                <p><strong>Transcription Result ("
        ++ ts ++ "):</strong></p>\n                <p>" ++ t
        ++ "</p>\n                <p><strong>Processing Time:</strong> " ++ p
        ++ "s</p>\n                <p><strong>File:</strong> ",
      "</p>\n            </div>\n            ",
      by simp [successEntryHTML, String.append_assoc]⟩
  · simp [handleUpload, hf, if_pos hok, displayResults]

/-- Witness for C1 at a concrete successful upload of `test.wav`. -/
theorem upload_success_renders_witness :
    (readyState ⟨"test.wav", "audio/wav", 500⟩).selectedFiles
        = [⟨"test.wav", "audio/wav", 500⟩]
      ∧ responseOk 200
      ∧ ((handleUpload "12:00:00 PM" (.response 200 "OK" (.success "hello" "1.2"))
            (readyState ⟨"test.wav", "audio/wav", 500⟩)).resultsHTML
          = successEntryHTML "12:00:00 PM" "hello" "1.2" "test.wav"
              ++ (readyState ⟨"test.wav", "audio/wav", 500⟩).resultsHTML
              ++ successTailHTML
        ∧ (∃ a b, successEntryHTML "12:00:00 PM" "hello" "1.2" "test.wav"
            = a ++ "hello" ++ b)
        ∧ (∃ a b, successEntryHTML "12:00:00 PM" "hello" "1.2" "test.wav"
            = a ++ "1.2" ++ b)
        ∧ (∃ a b, successEntryHTML "12:00:00 PM" "hello" "1.2" "test.wav"
            = a ++ "test.wav" ++ b)
        ∧ (handleUpload "12:00:00 PM" (.response 200 "OK" (.success "hello" "1.2"))
            (readyState ⟨"test.wav", "audio/wav", 500⟩)).statusText
          = "Transcription complete") :=
  ⟨by decide, by decide,
    upload_success_renders_text_time_name_and_status
      (readyState ⟨"test.wav", "audio/wav", 500⟩)
      ⟨"test.wav", "audio/wav", 500⟩ "12:00:00 PM" "hello" "1.2" "OK" 200
      (by decide) (by decide)⟩

/-- C2: every failing upload — rejected fetch or non-2xx response — prepends
an error entry containing the thrown error's message, sets the status to a
string beginning with `Error:`, and a non-2xx status is handled identically to
a transport failure whose message is `Upload failed: {status} {statusText}`. -/
theorem upload_failure_renders_error_entry (s : WidgetState) (f : JSFile)
    (ts : String) (hf : s.selectedFiles = [f]) :
    (∀ msg,
        (handleUpload ts (.networkError msg) s).resultsHTML
            = errorEntryHTML ts msg ++ s.resultsHTML ++ errorTailHTML
          ∧ (∃ a b, errorEntryHTML ts msg = a ++ msg ++ b)
          ∧ (∃ rest, (handleUpload ts (.networkError msg) s).statusText
              = "Error:" ++ rest))
      ∧ ∀ status stext body, ¬ responseOk status →
          handleUpload ts (.response status stext body) s
            = handleUpload ts
                (.networkError ("Upload failed: " ++ toString status ++ " " ++ stext)) s := by
  constructor
  · intro msg
    refine ⟨?_, ?_, ?_⟩
    · simp [handleUpload, hf, displayResults]
    · exact ⟨"\n                <div class=\"transcription-result error\">\n                    <p><strong>Error at "
          ++ ts ++ ":</strong></p>\n                    <p>",
        "</p>\n                </div>\n                ",
        by simp [errorEntryHTML, String.append_assoc]⟩
    · refine ⟨" " ++ msg, ?_⟩
      have h6 : ("Error:" : String) ++ " " = "Error: " := rfl
      simp [handleUpload, hf, displayResults, ← String.append_assoc, h6]
  · intro status stext body hnot
    simp [handleUpload, hf, if_neg hnot, displayResults]

/-- Witness for C2 at a concrete HTTP 500 failure of `test.wav`. -/
theorem upload_failure_renders_witness :
    (readyState ⟨"test.wav", "audio/wav", 500⟩).selectedFiles
        = [⟨"test.wav", "audio/wav", 500⟩]
      ∧ ¬ responseOk 500
      ∧ ((handleUpload "12:00:00 PM" (.networkError "boom")
            (readyState ⟨"test.wav", "audio/wav", 500⟩)).resultsHTML
          = errorEntryHTML "12:00:00 PM" "boom"
              ++ (readyState ⟨"test.wav", "audio/wav", 500⟩).resultsHTML
              ++ errorTailHTML
        ∧ (∃ a b, errorEntryHTML "12:00:00 PM" "boom" = a ++ "boom" ++ b)
        ∧ (∃ rest, (handleUpload "12:00:00 PM" (.networkError "boom")
            (readyState ⟨"test.wav", "audio/wav", 500⟩)).statusText
              = "Error:" ++ rest))
      ∧ handleUpload "12:00:00 PM"
            (.response 500 "Internal Server Error" (.failure "ignored"))
            (readyState ⟨"test.wav", "audio/wav", 500⟩)
          = handleUpload "12:00:00 PM"
              (.networkError ("Upload failed: " ++ toString 500 ++ " " ++ "Internal Server Error"))
              (readyState ⟨"test.wav", "audio/wav", 500⟩) := by
  have h := upload_failure_renders_error_entry
    (readyState ⟨"test.wav", "audio/wav", 500⟩) ⟨"test.wav", "audio/wav", 500⟩
    "12:00:00 PM" (by decide)
  exact ⟨by decide, by decide, h.1 "boom",
    h.2 500 "Internal Server Error" (.failure "ignored") (by decide)⟩

/-- C3: after every upload (success or failure) the progress indicator is
hidden, the file input and the upload button are re-enabled, and the file
selection is cleared. -/
theorem upload_always_resets_controls (s : WidgetState) (f : JSFile)
    (ts : String) (outcome : UploadOutcome) :
    (handleUpload ts outcome { s with selectedFiles := [f] }).progressVisible = false
      ∧ (handleUpload ts outcome { s with selectedFiles := [f] }).fileInputDisabled = false
      ∧ (handleUpload ts outcome { s with selectedFiles := [f] }).uploadButtonDisabled = false
      ∧ (handleUpload ts outcome { s with selectedFiles := [f] }).selectedFiles = [] := by
  cases outcome with
  | networkError msg => simp [handleUpload, displayResults]
  | response status stext body =>
      by_cases hok : responseOk status
      · cases body <;> simp [handleUpload, if_pos hok, displayResults]
      · simp [handleUpload, if_neg hok, displayResults]

/-- C4 counterexample: immediately after a completed upload the file selection
is cleared (no file selected, the claim's Idle condition) yet the upload
button is enabled, because the finally block re-enables it. -/
theorem post_upload_idle_has_submit_enabled :
    (handleUpload "12:00:00 PM" (.response 200 "OK" (.success "hello" "1.2"))
        (readyState ⟨"test.wav", "audio/wav", 500⟩)).selectedFiles = []
      ∧ (handleUpload "12:00:00 PM" (.response 200 "OK" (.success "hello" "1.2"))
          (readyState ⟨"test.wav", "audio/wav", 500⟩)).uploadButtonDisabled = false := by
  decide

/-- C4 amended: whenever `handleFileSelection` processes a selected file that
is invalid (wrong media type or oversize), the submit control is disabled
afterwards; the state immediately after an upload completes, however, has the
selection cleared with the submit control re-enabled. -/
theorem invalid_selection_disables_submit (s : WidgetState) (f : JSFile)
    (hinv : f.type ≠ "audio/wav" ∨ f.size > maxFileSize) :
    (handleFileSelection { s with selectedFiles := [f] }).uploadButtonDisabled = true := by
  by_cases hty : f.type = "audio/wav"
  · rcases hinv with h | h
    · exact absurd hty h
    · simp [handleFileSelection, hty, h, Nat.not_le.mpr h]
  · simp [handleFileSelection, hty]

/-- Witness for the amended C4 at a concrete non-WAV file. -/
theorem invalid_selection_disables_submit_witness :
    ((⟨"a.mp3", "audio/mpeg", 500⟩ : JSFile).type ≠ "audio/wav"
        ∨ (⟨"a.mp3", "audio/mpeg", 500⟩ : JSFile).size > maxFileSize)
      ∧ (handleFileSelection
          { initState with selectedFiles := [⟨"a.mp3", "audio/mpeg", 500⟩] }).uploadButtonDisabled
        = true :=
  ⟨by decide,
    invalid_selection_disables_submit initState ⟨"a.mp3", "audio/mpeg", 500⟩ (by decide)⟩

/-- C5: an invalid selection (wrong type or oversize) leaves the submit control
disabled, sets the status to the corresponding type-error or size-error
message (the type check runs first), and issues no network request. -/
theorem invalid_selection_message_and_no_network (s : WidgetState) (f : JSFile)
    (hinv : f.type ≠ "audio/wav" ∨ f.size > maxFileSize) :
    (handleFileSelection { s with selectedFiles := [f] }).uploadButtonDisabled = true
      ∧ (handleFileSelection { s with selectedFiles := [f] }).statusText
        = (if f.type ≠ "audio/wav" then "Error: Please select a WAV file"
           else "Error: File size exceeds 50MB limit")
      ∧ (handleFileSelection { s with selectedFiles := [f] }).networkRequests
        = s.networkRequests := by
  by_cases hty : f.type = "audio/wav"
  · rcases hinv with h | h
    · exact absurd hty h
    · simp [handleFileSelection, hty, h, Nat.not_le.mpr h]
  · simp [handleFileSelection, hty]

/-- Witness for C5 at a concrete oversize WAV file. -/
theorem invalid_selection_message_witness :
    ((⟨"big.wav", "audio/wav", 52428801⟩ : JSFile).type ≠ "audio/wav"
        ∨ (⟨"big.wav", "audio/wav", 52428801⟩ : JSFile).size > maxFileSize)
      ∧ ((handleFileSelection
            { initState with selectedFiles := [⟨"big.wav", "audio/wav", 52428801⟩] }).uploadButtonDisabled
          = true
        ∧ (handleFileSelection
            { initState with selectedFiles := [⟨"big.wav", "audio/wav", 52428801⟩] }).statusText
          = (if (⟨"big.wav", "audio/wav", 52428801⟩ : JSFile).type ≠ "audio/wav"
             then "Error: Please select a WAV file"
             else "Error: File size exceeds 50MB limit")
        ∧ (handleFileSelection
            { initState with selectedFiles := [⟨"big.wav", "audio/wav", 52428801⟩] }).networkRequests
          = initState.networkRequests) :=
  ⟨by decide,
    invalid_selection_message_and_no_network initState
      ⟨"big.wav", "audio/wav", 52428801⟩ (by decide)⟩

/-- C6 counterexample: for a valid 1MB WAV file the status text the code
produces closes the parenthesis after the `MB` label
(`Selected: a.wav (1.00MB)`), so it differs from the claim's literal string
`Selected: name (S)MB`, which places `MB` outside the parenthesis. -/
theorem valid_selection_status_mb_inside_parens :
    (handleFileSelection
        { initState with selectedFiles := [⟨"a.wav", "audio/wav", 1048576⟩] }).statusText
        = "Selected: a.wav (1.00MB)"
      ∧ sizeMBtoFixed2 1048576 = "1.00"
      ∧ (handleFileSelection
          { initState with selectedFiles := [⟨"a.wav", "audio/wav", 1048576⟩] }).statusText
        ≠ "Selected: a.wav (1.00)MB" := by
  decide

/-- C6 amended: for every selected file with the accepted WAV media type and
size at most 50MB, `handleFileSelection` enables the submit control and sets
the status indicator to `Selected: name (SMB)` — the `MB` label inside the
parentheses — where `S` is `(size/1024/1024).toFixed(2)`. -/
theorem valid_selection_enables_submit_and_status (s : WidgetState) (f : JSFile)
    (hty : f.type = "audio/wav") (hsz : f.size ≤ maxFileSize) :
    (handleFileSelection { s with selectedFiles := [f] }).uploadButtonDisabled = false
      ∧ (handleFileSelection { s with selectedFiles := [f] }).statusText
        = "Selected: " ++ f.name ++ " (" ++ sizeMBtoFixed2 f.size ++ "MB)" := by
  simp [handleFileSelection, hty, Nat.not_lt.mpr hsz]

/-- Witness for the amended C6 at a concrete valid WAV file. -/
theorem valid_selection_enables_submit_witness :
    (⟨"a.wav", "audio/wav", 1048576⟩ : JSFile).type = "audio/wav"
      ∧ (⟨"a.wav", "audio/wav", 1048576⟩ : JSFile).size ≤ maxFileSize
      ∧ ((handleFileSelection
            { initState with selectedFiles := [⟨"a.wav", "audio/wav", 1048576⟩] }).uploadButtonDisabled
          = false
        ∧ (handleFileSelection
            { initState with selectedFiles := [⟨"a.wav", "audio/wav", 1048576⟩] }).statusText
          = "Selected: " ++ "a.wav" ++ " (" ++ sizeMBtoFixed2 1048576 ++ "MB)") :=
  ⟨by decide, by decide,
    valid_selection_enables_submit_and_status initState
      ⟨"a.wav", "audio/wav", 1048576⟩ (by decide) (by decide)⟩

/-- C7 counterexample: a valid 500-byte WAV file is displayed as `0.00MB`, not
in Bytes: the status line does not contain the `Bytes` unit, even though the
repeated-division formatter `formatFileSize` would render 500 bytes as
`500 Bytes`. -/
theorem small_valid_file_not_shown_in_bytes :
    (handleFileSelection
        { initState with selectedFiles := [⟨"a.wav", "audio/wav", 500⟩] }).statusText
        = "Selected: a.wav (0.00MB)"
      ∧ formatFileSize 500 = "500 Bytes"
      ∧ ¬ (("Bytes").toList <:+: (handleFileSelection
          { initState with selectedFiles := [⟨"a.wav", "audio/wav", 500⟩] }).statusText.toList) := by
  refine ⟨by decide, by decide, ?_⟩
  decide

/-- C7 amended: on accepting a valid file the widget displays the size in
megabytes only, as `(size/1024/1024).toFixed(2)` with the `MB` label; the
repeated-division-by-1024 formatter `formatFileSize` (which renders sizes
below 1024 with the `Bytes` label) exists in the class but is not invoked by
file acceptance. -/
theorem accepted_file_shown_in_mb_only (s : WidgetState) (f : JSFile)
    (hty : f.type = "audio/wav") (hsz : f.size ≤ maxFileSize) :
    (handleFileSelection { s with selectedFiles := [f] }).statusText
        = "Selected: " ++ f.name ++ " (" ++ sizeMBtoFixed2 f.size ++ "MB)"
      ∧ ∀ b : Nat, 0 < b → b < 1024 → formatFileSize b = toString b ++ " Bytes" := by
  constructor
  · simp [handleFileSelection, hty, Nat.not_lt.mpr hsz]
  · intro b hb hlt
    have hb0 : ¬ b = 0 := by omega
    have h1 : (200 * b + 1) / 2 = 100 * b := by omega
    have h2 : 100 * b % 100 = 0 := by omega
    have h3 : 100 * b / 100 = b := by omega
    have h4 : (" " : String) ++ "Bytes" = " Bytes" := rfl
    simp [formatFileSize, hb0, hlt, h1, parseFloatFixedTwoString, h2, h3,
      sizesLabels, String.append_assoc, h4]

/-- Witness for the amended C7 at a concrete valid WAV file. -/
theorem accepted_file_shown_in_mb_only_witness :
    (⟨"b.wav", "audio/wav", 500⟩ : JSFile).type = "audio/wav"
      ∧ (⟨"b.wav", "audio/wav", 500⟩ : JSFile).size ≤ maxFileSize
      ∧ ((handleFileSelection
            { initState with selectedFiles := [⟨"b.wav", "audio/wav", 500⟩] }).statusText
          = "Selected: " ++ "b.wav" ++ " (" ++ sizeMBtoFixed2 500 ++ "MB)"
        ∧ ∀ b : Nat, 0 < b → b < 1024 → formatFileSize b = toString b ++ " Bytes") :=
  ⟨by decide, by decide,
    accepted_file_shown_in_mb_only initState ⟨"b.wav", "audio/wav", 500⟩
      (by decide) (by decide)⟩

/-- Helper: one widget event preserves a disabled file input with an empty
selection — a disabled input cannot receive a selection, and a click on the
upload button returns immediately when no file is selected. -/
theorem widgetStep_keeps_input_disabled (s : WidgetState) (e : WidgetEvent)
    (hd : s.fileInputDisabled = true) (hf : s.selectedFiles = []) :
    (widgetStep s e).fileInputDisabled = true
      ∧ (widgetStep s e).selectedFiles = [] := by
  cases e with
  | selectFile f => simp [widgetStep, hd, hf]
  | clickUpload ts outcome => simp [widgetStep, handleUpload, hf, hd]

/-- Helper: every event sequence preserves a disabled file input with an empty
selection. -/
theorem widgetRun_keeps_input_disabled (events : List WidgetEvent) :
    ∀ s : WidgetState, s.fileInputDisabled = true → s.selectedFiles = [] →
      (widgetRun s events).fileInputDisabled = true
        ∧ (widgetRun s events).selectedFiles = [] := by
  induction events with
  | nil => intro s hd hf; exact ⟨hd, hf⟩
  | cons e rest ih =>
      intro s hd hf
      have h := widgetStep_keeps_input_disabled s e hd hf
      exact ih (widgetStep s e) h.1 h.2

/-- C8: a failed connectivity check at page load (rejected fetch or non-ok
response) disables the file input and sets the connection-error status; under
every subsequent sequence of widget events the file input stays disabled. -/
theorem failed_health_check_disables_input_forever (s : WidgetState)
    (outcome : HealthOutcome) (events : List WidgetEvent)
    (hout : outcome ≠ HealthOutcome.ok) (hf : s.selectedFiles = []) :
    (checkAPIConnection outcome s).fileInputDisabled = true
      ∧ (checkAPIConnection outcome s).statusText
        = "Error: Cannot connect to transcription service"
      ∧ (widgetRun (checkAPIConnection outcome s) events).fileInputDisabled
        = true := by
  have h1 : (checkAPIConnection outcome s).fileInputDisabled = true
      ∧ (checkAPIConnection outcome s).statusText
        = "Error: Cannot connect to transcription service"
      ∧ (checkAPIConnection outcome s).selectedFiles = [] := by
    cases outcome with
    | ok => exact absurd rfl hout
    | notOk => simp [checkAPIConnection, hf]
    | networkError => simp [checkAPIConnection, hf]
  exact ⟨h1.1, h1.2.1,
    (widgetRun_keeps_input_disabled events _ h1.1 h1.2.2).1⟩

/-- Witness for C8: a concrete failed health check followed by a selection
attempt and an upload click. -/
theorem failed_health_check_witness :
    HealthOutcome.networkError ≠ HealthOutcome.ok
      ∧ initState.selectedFiles = []
      ∧ ((checkAPIConnection .networkError initState).fileInputDisabled = true
        ∧ (checkAPIConnection .networkError initState).statusText
          = "Error: Cannot connect to transcription service"
        ∧ (widgetRun (checkAPIConnection .networkError initState)
            [.selectFile ⟨"a.wav", "audio/wav", 500⟩,
             .clickUpload "12:00:00 PM" (.response 200 "OK" (.success "h" "1.0"))]).fileInputDisabled
          = true) :=
  ⟨by decide, by decide,
    failed_health_check_disables_input_forever initState .networkError
      [.selectFile ⟨"a.wav", "audio/wav", 500⟩,
       .clickUpload "12:00:00 PM" (.response 200 "OK" (.success "h" "1.0"))]
      (by decide) (by decide)⟩

/-- C9: every upload-progress notification with `loaded` bytes of `total` sets
the progress text to the rounded percentage `Math.round(100 * loaded / total)`
and the progress-bar width to that exact fraction of 100%. -/
theorem progress_notification_updates_text_and_width (s : WidgetState)
    (loaded total : ℚ) (_ht : 0 < total) :
    (onUploadProgress loaded total s).progressText
        = "Uploading: " ++ toString ⌊100 * loaded / total + 1 / 2⌋ ++ "%"
      ∧ (onUploadProgress loaded total s).progressFillPercent
        = 100 * loaded / total := by
  have h : loaded / total * 100 = 100 * loaded / total := by ring
  rw [onUploadProgress, updateProgress, h]
  exact ⟨rfl, rfl⟩

/-- Witness for C9 at a notification of 1 byte out of 3. -/
theorem progress_notification_witness :
    (0 : ℚ) < 3
      ∧ ((onUploadProgress 1 3 initState).progressText
          = "Uploading: " ++ toString ⌊(100 : ℚ) * 1 / 3 + 1 / 2⌋ ++ "%"
        ∧ (onUploadProgress 1 3 initState).progressFillPercent
          = (100 : ℚ) * 1 / 3) :=
  ⟨by norm_num, progress_notification_updates_text_and_width initState 1 3 (by norm_num)⟩

/-- C10: `displayResults` interpolates the response's `text` (success) and
`error` (failure) fields into the results markup verbatim, with no escaping:
the produced `innerHTML` string contains the raw field character for
character. -/
theorem display_results_interpolates_verbatim (ts t p err : String)
    (s : WidgetState) :
    (∃ a b, (displayResults ts (.success t p) s).resultsHTML = a ++ t ++ b)
      ∧ ∃ a b, (displayResults ts (.failure err) s).resultsHTML
          = a ++ err ++ b := by
  constructor
  · exact ⟨"\n            <div class=\"transcription-result\">\n                <p><strong>Transcription Result ("
        ++ ts ++ "):</strong></p>\n                <p>",
      "</p>\n                <p><strong>Processing Time:</strong> " ++ p
        ++ "s</p>\n                <p><strong>File:</strong> "
        ++ (s.selectedFiles.headD ⟨"", "", 0⟩).name
        ++ "</p>\n            </div>\n            "
        ++ s.resultsHTML ++ successTailHTML,
      by simp [displayResults, successEntryHTML, successTailHTML, String.append_assoc]⟩
  · exact ⟨"\n                <div class=\"transcription-result error\">\n                    <p><strong>Error at "
        ++ ts ++ ":</strong></p>\n                    <p>",
      "</p>\n                </div>\n                "
        ++ s.resultsHTML ++ errorTailHTML,
      by simp [displayResults, errorEntryHTML, errorTailHTML, String.append_assoc]⟩
